import Mathlib

/-!
Verification of the speech recognition session core (ServiceRecognizerBase)
against its natural language specification. The pure fragments of the
source are translated into executable Lean definitions; the asynchronous
parts (promise chains, the transport send queue, the upstream pump) are
modelled as explicit event traces and small step functions. RequestSession
is not among the given source files, so its operations are modelled from
the specification where needed; every such definition is marked in its
doc comment.
-/

/-- Transport connection state, as exposed by the transport layer. -/
inductive ConnectionState
  | None
  | Connecting
  | Connected
  | Disconnected
  deriving DecidableEq

/-- Observable shape of a stored connection promise, as inspected by the
guard at the top of connectImpl (source lines 370-376): whether the
promise has completed, whether it completed with an error, and the state
of the connection it resolved to. The futureId tracks promise identity. -/
structure StoredConn where
  futureId : Nat
  completed : Bool
  isError : Bool
  connState : ConnectionState
  deriving DecidableEq

/-- Decision taken by the connectImpl entry guard: either return the very
same stored promise or clear it and begin a fresh connection attempt. -/
inductive GuardDecision
  | useStored (futureId : Nat)
  | startFresh
  deriving DecidableEq

/-- Entry guard of connectImpl (source lines 369-380): if a stored
connection promise exists, it is cleared and a fresh attempt begun only
when it is completed and either completed with an error or resolved to a
connection in Disconnected state; otherwise the stored promise itself is
returned. -/
def connectImplGuard (stored : Option StoredConn) : GuardDecision :=
  match stored with
  | Option.none => GuardDecision.startFresh
  | Option.some f =>
      if f.completed = true ∧ (f.isError = true ∨ f.connState = ConnectionState.Disconnected)
      then GuardDecision.startFresh
      else GuardDecision.useStored f.futureId

/-- Outcome of a top level connect attempt: resolved with a connection id,
failed with the error message data, or never settles at all. -/
inductive ConnectOutcome
  | resolvedConn (connectionId : Nat)
  | failedMsg (statusCode : Nat) (endpoint : String) (reason : String)
  | neverSettles
  deriving DecidableEq

/-- Observable effects of one top level connectImpl call: how many times
auth.fetch and auth.fetchOnExpiry were called, which connection ids had
open invoked on them, and the final outcome of the returned promise. -/
structure ConnectObs where
  fetchCalls : Nat
  fetchOnExpiryCalls : Nat
  openedConnectionIds : List Nat
  outcome : ConnectOutcome
  deriving DecidableEq

/-- Model of one top level connectImpl() call (source lines 369-424) with
no stored promise at entry, a successful auth fetch, and a scripted
transport: the first connection.open resolves with firstStatus; were a
genuine second attempt ever made, its open would resolve with
secondStatus. The key asynchronous fact, mirrored here: the assignment of
privConnectionPromise at line 389 happens before the open response is
delivered, so when the continuation at lines 408-420 runs (and, on 403,
evaluates connectImpl(true) at line 415), the stored privConnectionPromise
is the still pending outer promise created by this very call. The guard
then returns that pending stored promise, which is the outer promise
itself; a promise whose outcome is defined as its own outcome never
settles, and no second auth fetch or open ever happens. -/
def connectScenario (firstStatus secondStatus : Nat) (endpoint reason : String) : ConnectObs :=
  if firstStatus = 200 then
    ⟨1, 0, [0], ConnectOutcome.resolvedConn 0⟩
  else if firstStatus = 403 then
    match connectImplGuard (Option.some
        ⟨0, false, false, ConnectionState.Connecting⟩) with
    | GuardDecision.useStored _ =>
        ⟨1, 0, [0], ConnectOutcome.neverSettles⟩
    | GuardDecision.startFresh =>
        if secondStatus = 200 then
          ⟨1, 1, [0, 1], ConnectOutcome.resolvedConn 1⟩
        else
          ⟨1, 1, [0, 1], ConnectOutcome.failedMsg secondStatus endpoint reason⟩
  else
    ⟨1, 0, [0], ConnectOutcome.failedMsg firstStatus endpoint reason⟩

/-- State inspected by disconnect: the stored connection promise (None
before any recognize or connect call has created one) and the recognizing
flag consulted by cancelRecognitionLocal. -/
structure DisconnectCore where
  connPromise : Option StoredConn
  isRecognizing : Bool
  deriving DecidableEq

/-- Effect of cancelRecognitionLocal (source lines 344-362) on the state
relevant to disconnect: it acts only while recognizing and does not touch
the stored connection promise. -/
def cancelRecognitionLocalOp (s : DisconnectCore) : DisconnectCore :=
  if s.isRecognizing = true then ⟨s.connPromise, false⟩ else s

/-- disconnect (source lines 280-296): first cancels locally, then calls
privConnectionPromise.result() unconditionally. When the stored promise is
null this dereference throws, modelled as an error result. -/
def disconnectOp (s : DisconnectCore) : Except String DisconnectCore :=
  let s1 := cancelRecognitionLocalOp s
  match s1.connPromise with
  | Option.none => Except.error "TypeError: privConnectionPromise is null"
  | Option.some f =>
      if f.completed = true then
        if f.isError = true then Except.ok s1
        else Except.ok ⟨Option.none, s1.isRecognizing⟩
      else Except.ok s1

/-- One message sent on the transport, for the configuration layer trace:
its path, the physical connection id it was sent on, and the requestId it
carried. -/
structure CfgMsg where
  path : String
  connectionId : Nat
  requestId : Nat
  deriving DecidableEq

/-- Configuration layer state of the core, in the healthy scenario where
auth succeeds, open returns 200 and the connection stays Connected. conn
is the established connection id (None before the first attempt),
configCached says whether privConnectionConfigurationPromise is populated,
and sent is the trace of transport sends. -/
structure CfgCore where
  conn : Option Nat
  connHealthy : Bool
  configCached : Bool
  speechServiceConfigConnectionId : Option Nat
  requestId : Nat
  nextRequestId : Nat
  nextConnId : Nat
  sent : List CfgMsg
  deriving DecidableEq

/-- connectImpl in the healthy scenario (source lines 369-424): reuse the
stored connection when it is present and healthy, otherwise mint a fresh
connection id and establish a new connection. -/
def connectImplOp (s : CfgCore) : CfgCore :=
  match s.conn with
  | Option.some _ =>
      if s.connHealthy = true then s
      else ⟨Option.some s.nextConnId, true, s.configCached,
            s.speechServiceConfigConnectionId, s.requestId, s.nextRequestId,
            s.nextConnId + 1, s.sent⟩
  | Option.none =>
      ⟨Option.some s.nextConnId, true, s.configCached,
       s.speechServiceConfigConnectionId, s.requestId, s.nextRequestId,
       s.nextConnId + 1, s.sent⟩

/-- Current connection id, defined once a connection is established. -/
def currentConn (s : CfgCore) : Nat :=
  match s.conn with
  | Option.some c => c
  | Option.none => 0

/-- sendSpeechServiceConfig (source lines 551-576). The serialized config
document is always nonempty, so the message is always sent. Note the
condition comparing privConnectionId with
privSpeechServiceConfigConnectionId at line 565 is commented out in the
source: the function records the connection id but never consults it, so
nothing prevents a second speech.config on the same connection. -/
def sendSpeechServiceConfigOp (s : CfgCore) : CfgCore :=
  ⟨s.conn, s.connHealthy, s.configCached, s.conn, s.requestId, s.nextRequestId,
   s.nextConnId, s.sent ++ [⟨"speech.config", currentConn s, s.requestId⟩]⟩

/-- sendSpeechContext (source lines 578-590): sends the speech.context
Text message carrying the current requestId. -/
def sendSpeechContextOp (s : CfgCore) : CfgCore :=
  ⟨s.conn, s.connHealthy, s.configCached, s.speechServiceConfigConnectionId,
   s.requestId, s.nextRequestId, s.nextConnId,
   s.sent ++ [⟨"speech.context", currentConn s, s.requestId⟩]⟩

/-- configureConnection (source lines 427-450) in the healthy scenario:
when the configured connection promise is cached it is returned untouched;
otherwise a connection is obtained from connectImpl, speech.config is
sent, then speech.context, and the result is cached. -/
def configureConnectionOp (s : CfgCore) : CfgCore :=
  if s.configCached = true then s
  else
    let s1 := connectImplOp s
    let s2 := sendSpeechServiceConfigOp s1
    let s3 := sendSpeechContextOp s2
    ⟨s3.conn, s3.connHealthy, true, s3.speechServiceConfigConnectionId,
     s3.requestId, s3.nextRequestId, s3.nextConnId, s3.sent⟩

/-- Modelled from the spec: RequestSession.startNewRecognition mints a
fresh requestId (RequestSession is not among the given sources). Fresh
opaque ids are modelled by a counter. -/
def startNewRecognitionOp (s : CfgCore) : CfgCore :=
  ⟨s.conn, s.connHealthy, s.configCached, s.speechServiceConfigConnectionId,
   s.nextRequestId, s.nextRequestId + 1, s.nextConnId, s.sent⟩

/-- recognize (source lines 197-264), configuration effects only: clear
the configured connection promise to force re-transmission of config and
context (line 204), start a new recognition, start the connection
(line 211), then configure it (line 229). -/
def recognizeOp (s : CfgCore) : CfgCore :=
  let s0 := ⟨s.conn, s.connHealthy, false, s.speechServiceConfigConnectionId,
             s.requestId, s.nextRequestId, s.nextConnId, s.sent⟩
  let s1 := startNewRecognitionOp s0
  let s2 := connectImplOp s1
  configureConnectionOp s2

/-- Continuous mode turn.end continuation (source lines 515-536, the
branch that keeps the session alive): onServiceTurnEndResponse begins a
new turn with a fresh requestId (modelled from the spec, section 4.3),
then speech.context is re-sent through fetchConnection, which is
configureConnection and therefore returns the cached configured
connection. -/
def turnEndContinueOp (s : CfgCore) : CfgCore :=
  let s1 := startNewRecognitionOp s
  let s2 := configureConnectionOp s1
  sendSpeechContextOp s2

/-- Initial configuration state: no connection, nothing cached, nothing
sent. -/
def cfgCoreInit : CfgCore :=
  ⟨Option.none, true, false, Option.none, 0, 1, 0, []⟩

/-- Number of speech.config messages in a trace that were sent on the
physical connection with id c. -/
def configCountOn (msgs : List CfgMsg) (c : Nat) : Nat :=
  (msgs.filter fun m => decide (m.path = "speech.config" ∧ m.connectionId = c)).length

/-- Iterated continuous mode turn boundaries. -/
def turnEnds : Nat → CfgCore → CfgCore
  | 0, s => s
  | n + 1, s => turnEnds n (turnEndContinueOp s)

/-- Steady state of the configuration layer inside one continuous
recognition on connection 0: the configured connection promise is cached,
the connection is healthy, and exactly one speech.config has been sent on
the connection. -/
def CfgSteady (s : CfgCore) : Prop :=
  s.configCached = true ∧ s.conn = Option.some 0 ∧ s.connHealthy = true ∧
    configCountOn s.sent 0 = 1

/-- One result of reading the audio stream node: a data chunk with a byte
length, or the end of stream marker. -/
inductive Chunk
  | data (byteLength : Nat)
  | endOfStream
  deriving DecidableEq

/-- Observable events of the upstream pump: a fetchConnection call, a
Binary audio frame (payload None is the null body signalling end of
audio), and the session.onSpeechEnded call. -/
inductive PumpEv
  | fetchConnection
  | audioFrame (requestId : Nat) (payload : Option Nat)
  | speechEndedSet
  deriving DecidableEq

/-- Settlement state of the deferred returned by sendAudio. -/
inductive DefStatus
  | pending
  | resolvedTrue
  | rejected (err : String)
  deriving DecidableEq

/-- Session and core state read by the upstream pump. -/
structure PumpSt where
  isDisposed : Bool
  isSpeechEnded : Bool
  isRecognizing : Bool
  recogNumber : Nat
  requestId : Nat
  bytesSent : Nat
  deriving DecidableEq

/-- A termination condition of the upstream pump holds: the core is
disposed, speech has ended, recognition has stopped, or the live
recogNumber differs from the one captured at pump start. -/
def terminationCondition (startRecogNumber : Nat) (s : PumpSt) : Prop :=
  s.isDisposed = true ∨ s.isSpeechEnded = true ∨ s.isRecognizing = false ∨
    s.recogNumber ≠ startRecogNumber

/-- The read and upload cycle of sendAudio (source lines 638-731), run
over a script of chunk reads. The head guard (lines 641-644) proceeds only
while not disposed, speech not ended, recognizing, and the recogNumber
still equals the one captured at start; when the guard fails the function
merely returns, leaving the deferred untouched (pending). A data chunk is
counted by onAudioSent and sent as a Binary audio frame, then the next
cycle runs. The end of stream chunk sends the null body audio frame, calls
onSpeechEnded and resolves the deferred, scheduling no further read. An
exhausted script models a read that never completes. -/
def readAndUploadCycle (startRecogNumber : Nat) :
    PumpSt → List Chunk → List PumpEv × DefStatus × PumpSt
  | s, chunks =>
    if s.isDisposed = false ∧ s.isSpeechEnded = false ∧ s.isRecognizing = true ∧
        s.recogNumber = startRecogNumber then
      match chunks with
      | [] => ([PumpEv.fetchConnection], DefStatus.pending, s)
      | c :: rest =>
        -- re-check at chunk receipt, source line 648
        if s.isSpeechEnded = true then
          ([PumpEv.fetchConnection], DefStatus.resolvedTrue, s)
        else
          match c with
          | Chunk.endOfStream =>
              ([PumpEv.fetchConnection, PumpEv.audioFrame s.requestId Option.none,
                PumpEv.speechEndedSet],
               DefStatus.resolvedTrue,
               ⟨s.isDisposed, true, s.isRecognizing, s.recogNumber, s.requestId,
                s.bytesSent⟩)
          | Chunk.data n =>
              let s1 : PumpSt :=
                ⟨s.isDisposed, s.isSpeechEnded, s.isRecognizing, s.recogNumber,
                 s.requestId, s.bytesSent + n⟩
              let r := readAndUploadCycle startRecogNumber s1 rest
              (PumpEv.fetchConnection :: PumpEv.audioFrame s.requestId (Option.some n)
                 :: r.1, r.2.1, r.2.2)
    else ([], DefStatus.pending, s)

/-- Base ten digit string parse, as parseInt with radix 10 behaves on the
fast lane property value (source line 635). -/
def parseDecimal (str : String) : Option Nat :=
  let cs := str.data
  if cs ≠ [] ∧ cs.all Char.isDigit = true then
    Option.some (cs.foldl (fun acc c => acc * 10 + (c.toNat - 48)) 0)
  else Option.none

/-- Lookup of the fast lane property with its documented default (source
line 634). -/
def fastLaneSizeMsProperty (props : List (String × String)) : String :=
  match props.lookup "SPEECH-TransmitLengthBeforThrottleMs" with
  | Option.some v => v
  | Option.none => "5000"

/-- Unthrottled byte budget (source line 635): avgBytesPerSec divided by
1000, times the parsed fast lane milliseconds. -/
def maxSendUnthrottledBytes (avgBytesPerSec : ℚ) (fastLaneSizeMs : Nat) : ℚ :=
  avgBytesPerSec / 1000 * (fastLaneSizeMs : ℚ)

/-- Delay applied before the next cycle (source lines 664-668): zero while
cumulative bytesSent, including the current payload, is within the budget;
otherwise the positive part of nextSendTime minus now. -/
def sendDelayFor (maxUnthrottledBytes bytesSent nextSendTime now : ℚ) : ℚ :=
  if bytesSent ≤ maxUnthrottledBytes then 0 else max 0 (nextSendTime - now)

/-- Update of nextSendTime after sending a payload of byteLength bytes
(source line 673). -/
def nextSendTimeAfterSend (now byteLength avgBytesPerSec : ℚ) : ℚ :=
  now + byteLength * 1000 / (avgBytesPerSec * 2)

/-- ASCII lower casing of one character, as toLowerCase behaves on the
ASCII message paths and request ids used by the protocol. -/
def charLower (c : Char) : Char :=
  if 65 ≤ c.toNat ∧ c.toNat ≤ 90 then Char.ofNat (c.toNat + 32) else c

/-- ASCII lower casing of a string. -/
def lowerStr (x : String) : String :=
  String.mk (x.data.map charLower)

/-- One downstream message as seen by the receive loop: requestId header,
path header, and the parsed Offset field of the body for the speech
detected messages (None models an empty textBody; the JSON layer,
SpeechDetected.fromJSON, is not among the given sources and is modelled
from the spec as parsing the Offset field). -/
structure TurnMsg where
  requestId : String
  path : String
  offsetBody : Option Int
  deriving DecidableEq

/-- Observable actions of the receive loop dispatch. -/
inductive DispEv
  | speechStartDetectedEvent (offset : Int)
  | onServiceRecognizedCall (arg : Int)
  | speechEndDetectedEvent (offset : Int)
  | telemetryFlush
  | cancelEndOfStream
  | sessionStoppedEvent
  | contextResend
  | typeSpecific (path : String)
  deriving DecidableEq

/-- What the receive loop does after dispatching one message: resolve its
promise with true, or continue reading. -/
inductive LoopOutcome
  | resolveTrue
  | continueLoop
  deriving DecidableEq

/-- Session state read and written by the receive loop dispatch. -/
structure SessSt where
  requestId : String
  currentTurnAudioOffset : Int
  mustReportEndOfStream : Bool
  isSpeechEnded : Bool
  isRecognizing : Bool
  deriving DecidableEq

/-- Modelled from the spec, section 4.3: RequestSession.onServiceRecognized
advances currentTurnAudioOffset by its offsetTicks argument (RequestSession
is not among the given sources). -/
def onServiceRecognized (s : SessSt) (offsetTicks : Int) : SessSt :=
  ⟨s.requestId, s.currentTurnAudioOffset + offsetTicks, s.mustReportEndOfStream,
   s.isSpeechEnded, s.isRecognizing⟩

/-- Modelled from the spec, section 4.3: onServiceTurnEndResponse begins a
new turn with a fresh requestId when continuous and speech has not ended,
retaining currentTurnAudioOffset; otherwise it marks recognition stopped.
The fresh opaque id is modelled by appending a suffix. -/
def onServiceTurnEndResponse (isContinuous : Bool) (s : SessSt) : SessSt :=
  if isContinuous = false ∨ s.isSpeechEnded = true then
    ⟨s.requestId, s.currentTurnAudioOffset, s.mustReportEndOfStream,
     s.isSpeechEnded, false⟩
  else
    ⟨s.requestId ++ "next", s.currentTurnAudioOffset, s.mustReportEndOfStream,
     s.isSpeechEnded, s.isRecognizing⟩

/-- speech.enddetected branch of receiveMessage (source lines 490-514):
the Offset defaults to 0 when the textBody is empty (the source
substitutes a default JSON document with Offset 0); in continuous mode
onServiceRecognized is invoked with the parsed Offset plus
currentTurnAudioOffset (line 506); the speechEndDetected event offset is
computed as the parsed Offset plus currentTurnAudioOffset read at line
509, after that invocation. -/
def speechEndDetectedDispatch (isContinuous : Bool) (s : SessSt)
    (offsetBody : Option Int) : List DispEv × SessSt :=
  let offset : Int :=
    match offsetBody with
    | Option.some o => o
    | Option.none => 0
  if isContinuous = true then
    let arg := offset + s.currentTurnAudioOffset
    let s1 := onServiceRecognized s arg
    ([DispEv.onServiceRecognizedCall arg,
      DispEv.speechEndDetectedEvent (offset + s1.currentTurnAudioOffset)], s1)
  else
    ([DispEv.speechEndDetectedEvent (offset + s.currentTurnAudioOffset)], s)

/-- turn.end branch of receiveMessage (source lines 515-541): telemetry is
flushed; if speech has ended while mustReportEndOfStream is armed, the
flag is cleared and a local EndOfStream cancellation issued (which stops
recognizing); onServiceTurnEndResponse runs; then, when not continuous or
speech has ended, sessionStopped is emitted and the loop resolves.
Otherwise speech.context is re-sent fire and forget, and, because the
turn.end case has no break statement, control falls through into the
default case, handing the very same turn.end message to
processTypeSpecificMessages. -/
def turnEndDispatch (isContinuous : Bool) (s : SessSt) (m : TurnMsg) :
    List DispEv × SessSt × LoopOutcome :=
  let cancelled := s.isSpeechEnded = true ∧ s.mustReportEndOfStream = true
  let evs0 :=
    if cancelled then [DispEv.telemetryFlush, DispEv.cancelEndOfStream]
    else [DispEv.telemetryFlush]
  let s0 : SessSt :=
    if cancelled then
      ⟨s.requestId, s.currentTurnAudioOffset, false, s.isSpeechEnded, false⟩
    else s
  let s1 := onServiceTurnEndResponse isContinuous s0
  if isContinuous = false ∨ s1.isSpeechEnded = true then
    (evs0 ++ [DispEv.sessionStoppedEvent], s1, LoopOutcome.resolveTrue)
  else
    (evs0 ++ [DispEv.contextResend, DispEv.typeSpecific m.path], s1,
     LoopOutcome.continueLoop)

/-- Dispatch of one downstream message (source lines 452-549): messages
whose requestId does not match the current one, case insensitively, are
ignored; otherwise the path, lower cased, selects the branch, with every
path other than the four control paths handed to
processTypeSpecificMessages. -/
def dispatchMessage (isContinuous : Bool) (s : SessSt) (m : TurnMsg) :
    List DispEv × SessSt × LoopOutcome :=
  if lowerStr m.requestId = lowerStr s.requestId then
    if lowerStr m.path = "turn.start" then
      ([], ⟨s.requestId, s.currentTurnAudioOffset, true, s.isSpeechEnded,
            s.isRecognizing⟩, LoopOutcome.continueLoop)
    else if lowerStr m.path = "speech.startdetected" then
      ([DispEv.speechStartDetectedEvent ((m.offsetBody).getD 0)], s,
       LoopOutcome.continueLoop)
    else if lowerStr m.path = "speech.enddetected" then
      let r := speechEndDetectedDispatch isContinuous s m.offsetBody
      (r.1, r.2, LoopOutcome.continueLoop)
    else if lowerStr m.path = "turn.end" then
      turnEndDispatch isContinuous s m
    else
      ([DispEv.typeSpecific m.path], s, LoopOutcome.continueLoop)
  else
    ([], s, LoopOutcome.continueLoop)

/-- Kind of a transport frame. -/
inductive MsgKind
  | text
  | binary
  deriving DecidableEq

/-- One send handed to the transport, for the send ordering model: frame
kind, path, the requestId it carried, and how many previously handed over
sends had already resolved at the moment this one was handed over. The
transport resolves send futures in hand over order, so the send at list
position j has resolved at some moment exactly when more than j sends have
resolved; a send with resolvedAtInit greater than j was therefore handed
over only after send j resolved. -/
structure SendRec where
  kind : MsgKind
  path : String
  reqId : Nat
  resolvedAtInit : Nat
  deriving DecidableEq

/-- Progress of the configureConnection promise chain (source lines
440-447): awaiting the speech.config send, awaiting the speech.context
send, or resolved. -/
inductive CfgPhase
  | awaitConfig
  | awaitContext
  | configured
  deriving DecidableEq

/-- Progress of the upstream pump relative to the transport: not yet
started, ready to send the next audio frame, or awaiting resolution of the
send it handed over at a given position. -/
inductive PumpPhase
  | idle
  | ready
  | awaitUpload (idx : Nat)
  deriving DecidableEq

/-- State of the send ordering model on one physical connection in
continuous mode: the hand over trace, the count of resolved sends (the
transport resolves them in order), the configuration chain phase, the pump
phase, the current requestId (1 for the turn in which the connection was
configured, 2 after the first turn boundary), and whether the turn
boundary has been delivered. -/
structure WireSt where
  sends : List SendRec
  resolved : Nat
  cfg : CfgPhase
  pump : PumpPhase
  reqId : Nat
  turnEnded : Bool
  deriving DecidableEq

/-- The speech.config send: first hand over on the connection, requestId 1,
nothing resolved before it. -/
def cfgSend : SendRec := ⟨MsgKind.text, "speech.config", 1, 0⟩

/-- The speech.context send of the configuration turn: handed over by the
configureConnection chain after the speech.config send resolved. -/
def ctx1Send : SendRec := ⟨MsgKind.text, "speech.context", 1, 1⟩

/-- Initial model state: configureConnection has just handed the
speech.config send to the transport and awaits it. -/
def wireInit : WireSt :=
  ⟨[cfgSend], 0, CfgPhase.awaitConfig, PumpPhase.idle, 1, false⟩

/-- Scheduler actions of the send ordering model: the transport resolves
the oldest unresolved send (running the continuation that awaited it), the
pump hands over the next audio frame, or the receive loop processes the
continuous mode turn.end (new requestId, then the fire and forget
speech.context re-send of source lines 533-535). -/
inductive WireAct
  | resolveNext
  | pumpSend
  | deliverTurnEnd
  deriving DecidableEq

/-- Transport resolves the oldest unresolved send. Resolution of the
speech.config send makes the configureConnection chain hand over the
speech.context send (source lines 441-443); resolution of the
speech.context send resolves the configured connection promise, upon which
recognize launches the pump (lines 229-238); resolution of an audio send
the pump was awaiting makes the pump ready for its next cycle (lines
686-706). -/
def resolveNextStep (s : WireSt) : Option WireSt :=
  if s.resolved < s.sends.length then
    if s.cfg = CfgPhase.awaitConfig ∧ s.resolved = 0 then
      Option.some ⟨s.sends ++ [⟨MsgKind.text, "speech.context", s.reqId, s.resolved + 1⟩],
        s.resolved + 1, CfgPhase.awaitContext, s.pump, s.reqId, s.turnEnded⟩
    else if s.cfg = CfgPhase.awaitContext ∧ s.resolved = 1 then
      Option.some ⟨s.sends, s.resolved + 1, CfgPhase.configured, PumpPhase.ready,
        s.reqId, s.turnEnded⟩
    else if s.pump = PumpPhase.awaitUpload s.resolved then
      Option.some ⟨s.sends, s.resolved + 1, s.cfg, PumpPhase.ready, s.reqId,
        s.turnEnded⟩
    else
      Option.some ⟨s.sends, s.resolved + 1, s.cfg, s.pump, s.reqId, s.turnEnded⟩
  else Option.none

/-- Pump hands the next Binary audio frame to the transport, carrying the
current requestId, then awaits its resolution (source lines 676-706). The
pump gates each cycle only on fetchConnection, which returns the long
resolved configured connection promise, so no precondition beyond the pump
being ready applies. -/
def pumpSendStep (s : WireSt) : Option WireSt :=
  if s.pump = PumpPhase.ready then
    Option.some ⟨s.sends ++ [⟨MsgKind.binary, "audio", s.reqId, s.resolved⟩],
      s.resolved, s.cfg, PumpPhase.awaitUpload s.sends.length, s.reqId, s.turnEnded⟩
  else Option.none

/-- Receive loop processes the continuous mode turn.end (source lines
515-536): onServiceTurnEndResponse begins turn 2 with a fresh requestId,
then sendSpeechContext hands the new speech.context over, fire and forget;
its send future is not awaited by anyone. -/
def deliverTurnEndStep (s : WireSt) : Option WireSt :=
  if s.cfg = CfgPhase.configured ∧ s.turnEnded = false then
    Option.some ⟨s.sends ++ [⟨MsgKind.text, "speech.context", 2, s.resolved⟩],
      s.resolved, s.cfg, s.pump, 2, true⟩
  else Option.none

/-- One scheduler step of the send ordering model. -/
def wireStep (s : WireSt) : WireAct → Option WireSt
  | WireAct.resolveNext => resolveNextStep s
  | WireAct.pumpSend => pumpSendStep s
  | WireAct.deliverTurnEnd => deliverTurnEndStep s

/-- Run a list of scheduler actions from a given state. -/
def wireRunFrom (s : WireSt) : List WireAct → Option WireSt
  | [] => Option.some s
  | a :: rest =>
    match wireStep s a with
    | Option.some s1 => wireRunFrom s1 rest
    | Option.none => Option.none

/-- Run a list of scheduler actions from the initial state. -/
def wireRun (acts : List WireAct) : Option WireSt :=
  wireRunFrom wireInit acts

/-- The audio ordering property claimed for every turn: every Binary audio
frame was handed over only after a speech.context send carrying the same
requestId had already resolved. -/
def contextResolvedBeforeAudio (s : WireSt) : Bool :=
  s.sends.all fun m =>
    if m.kind = MsgKind.binary then
      (List.range s.sends.length).any fun j =>
        match s.sends[j]? with
        | Option.some c =>
            decide (c.path = "speech.context" ∧ c.reqId = m.reqId ∧
              j < m.resolvedAtInit)
        | Option.none => false
    else true

/-- Reachable state used to witness the amended ordering claim: both
configuration sends resolved, then one audio frame handed over. -/
def wireWitnessSt : WireSt :=
  ⟨[cfgSend, ctx1Send, ⟨MsgKind.binary, "audio", 1, 2⟩], 2, CfgPhase.configured,
   PumpPhase.awaitUpload 2, 1, false⟩

/-- Invariant of the send ordering model: the trace starts with the
speech.config send, the configured phase implies both configuration sends
have resolved, the pump runs only once configured, every speech.context
send was handed over after the speech.config send resolved, every Binary
send after both configuration sends resolved, and the shape of the trace
in the early phases. -/
structure WireInv (s : WireSt) : Prop where
  head_cfg : ∃ t, s.sends = cfgSend :: t
  cfg_resolved : s.cfg = CfgPhase.configured → 2 ≤ s.resolved
  pump_cfg : s.pump ≠ PumpPhase.idle → s.cfg = CfgPhase.configured
  ctx_resolvedAtInit : ∀ m ∈ s.sends, m.path = "speech.context" → 1 ≤ m.resolvedAtInit
  bin_resolvedAtInit : ∀ m ∈ s.sends, m.kind = MsgKind.binary → 2 ≤ m.resolvedAtInit
  await_shape : s.cfg = CfgPhase.awaitConfig → s.sends = [cfgSend]
  ctx1_shape : s.cfg ≠ CfgPhase.awaitConfig → ∃ t, s.sends = cfgSend :: ctx1Send :: t
  reqId_pre : s.cfg ≠ CfgPhase.configured → s.reqId = 1

/-- Appending one message changes the speech.config count on a connection
by one exactly when the appended message is a speech.config on that
connection. -/
theorem configCountOn_append (l : List CfgMsg) (m : CfgMsg) (c : Nat) :
    configCountOn (l ++ [m]) c =
      configCountOn l c +
        (if m.path = "speech.config" ∧ m.connectionId = c then 1 else 0) := by
  unfold configCountOn
  rw [List.filter_append, List.length_append]
  congr 1
  split_ifs with h
  · simp [List.filter, h]
  · simp [List.filter, h]

/-- The continuous mode turn boundary preserves the steady configuration
state: the cached configured connection is reused and only speech.context
is appended. -/
theorem cfgSteady_turnEndContinue (s : CfgCore) (h : CfgSteady s) :
    CfgSteady (turnEndContinueOp s) := by
  obtain ⟨h1, h2, h3, h4⟩ := h
  unfold turnEndContinueOp startNewRecognitionOp configureConnectionOp sendSpeechContextOp
  simp only [h1, if_pos]
  refine ⟨rfl, h2, h3, ?_⟩
  rw [configCountOn_append, h4]
  simp

/-- The steady configuration state is preserved by any number of
continuous mode turn boundaries. -/
theorem cfgSteady_turnEnds (n : Nat) :
    ∀ s : CfgCore, CfgSteady s → CfgSteady (turnEnds n s) := by
  induction n with
  | zero => intro s h; exact h
  | succ k ih => intro s h; exact ih (turnEndContinueOp s) (cfgSteady_turnEndContinue s h)

/-- Claim C1, counterexample: calling recognize twice while the same
healthy connection (id 0) is reused sends speech.config twice on that
connection, because recognize clears the configured connection cache and
the once per connection guard in sendSpeechServiceConfig is commented out
in the source. The claim that speech.config is sent at most once per
connection id is therefore false as stated. -/
theorem C1_counterexample :
    configCountOn (recognizeOp (recognizeOp cfgCoreInit)).sent 0 = 2 ∧
      (recognizeOp (recognizeOp cfgCoreInit)).conn = Option.some 0 := by decide

/-- Claim C1, amended: within a single recognition, speech.config is sent
exactly once on the connection no matter how many continuous mode turn
boundaries occur; only a renewed recognize call re-sends it. -/
theorem C1_amended (n : Nat) :
    configCountOn (turnEnds n (recognizeOp cfgCoreInit)).sent 0 = 1 ∧
      (turnEnds n (recognizeOp cfgCoreInit)).conn = Option.some 0 := by
  have hbase : CfgSteady (recognizeOp cfgCoreInit) := by unfold CfgSteady; decide
  have h := cfgSteady_turnEnds n (recognizeOp cfgCoreInit) hbase
  exact ⟨h.2.2.2, h.2.1⟩

/-- Claim C1, witness: the amended statement evaluated after three turn
boundaries. -/
theorem C1_amended_witness :
    configCountOn (turnEnds 3 (recognizeOp cfgCoreInit)).sent 0 = 1 ∧
      (turnEnds 3 (recognizeOp cfgCoreInit)).conn = Option.some 0 :=
  C1_amended 3

/-- Claim C3, counterexample: with a termination condition holding at the
head of the cycle (here isRecognizing is false), the pump schedules no
further read but the deferred is left pending, not resolved, refuting the
claim that the returned future resolves. -/
theorem C3_counterexample :
    readAndUploadCycle 1 ⟨false, false, false, 1, 7, 0⟩ [Chunk.data 100] =
      ([], DefStatus.pending, ⟨false, false, false, 1, 7, 0⟩) ∧
    DefStatus.pending ≠ DefStatus.resolvedTrue := by decide

/-- Claim C3, amended: whenever a termination condition holds at the head
of a read and upload cycle, the pump performs no further read and leaves
its deferred untouched; the returned future stays pending on this path and
is settled only by the end of stream, mid cycle speech ended, or error
paths. -/
theorem C3_amended (start : Nat) (s : PumpSt) (chunks : List Chunk)
    (h : terminationCondition start s) :
    readAndUploadCycle start s chunks = ([], DefStatus.pending, s) := by
  have hng : ¬ (s.isDisposed = false ∧ s.isSpeechEnded = false ∧
      s.isRecognizing = true ∧ s.recogNumber = start) := by
    rcases h with h | h | h | h <;> simp [h]
  unfold readAndUploadCycle
  rw [if_neg hng]

/-- Claim C3, witness: the amended statement evaluated on a disposed
core. -/
theorem C3_amended_witness :
    readAndUploadCycle 1 ⟨true, false, true, 1, 2, 5⟩ [] =
      ([], DefStatus.pending, ⟨true, false, true, 1, 2, 5⟩) :=
  C3_amended 1 ⟨true, false, true, 1, 2, 5⟩ []
    (by unfold terminationCondition; decide)

/-- Claim C9: when the guard passes and the chunk read is the end of
stream marker while speech has not already ended, the pump sends exactly
one Binary audio frame with null body carrying the current requestId, then
calls onSpeechEnded, resolves its future with true, and schedules no
further read, whatever chunks would have followed. -/
theorem C9_end_of_stream (start : Nat) (s : PumpSt) (rest : List Chunk)
    (h1 : s.isDisposed = false) (h2 : s.isSpeechEnded = false)
    (h3 : s.isRecognizing = true) (h4 : s.recogNumber = start) :
    readAndUploadCycle start s (Chunk.endOfStream :: rest) =
      ([PumpEv.fetchConnection, PumpEv.audioFrame s.requestId Option.none,
        PumpEv.speechEndedSet], DefStatus.resolvedTrue,
       ⟨s.isDisposed, true, s.isRecognizing, s.recogNumber, s.requestId,
        s.bytesSent⟩) := by
  unfold readAndUploadCycle
  rw [if_pos ⟨h1, h2, h3, h4⟩]
  simp [h2]

/-- Claim C9, witness: the end of stream behaviour evaluated on a concrete
recognizing state with pending further chunks. -/
theorem C9_end_of_stream_witness :
    readAndUploadCycle 5 ⟨false, false, true, 5, 9, 3⟩
        [Chunk.endOfStream, Chunk.data 1] =
      ([PumpEv.fetchConnection, PumpEv.audioFrame 9 Option.none,
        PumpEv.speechEndedSet], DefStatus.resolvedTrue,
       ⟨false, true, true, 5, 9, 3⟩) :=
  C9_end_of_stream 5 ⟨false, false, true, 5, 9, 3⟩ [Chunk.data 1] rfl rfl rfl rfl

/-- Claim C10: calling disconnect while no connection promise exists (as
before any recognize or connect call) dereferences the null stored promise
and throws instead of completing as a no-op; a prior connection attempt is
an unstated precondition. -/
theorem C10_disconnect_null (s : DisconnectCore) (h : s.connPromise = Option.none) :
    disconnectOp s = Except.error "TypeError: privConnectionPromise is null" := by
  unfold disconnectOp cancelRecognitionLocalOp
  split_ifs with hr <;> simp [h]

/-- Claim C10, witness: disconnect on the initial state, recognizing flag
set, still throws. -/
theorem C10_disconnect_null_witness :
    disconnectOp ⟨Option.none, true⟩ =
      Except.error "TypeError: privConnectionPromise is null" :=
  C10_disconnect_null ⟨Option.none, true⟩ rfl

/-- The invariant holds in the initial state of the send ordering model. -/
theorem wireInv_init : WireInv wireInit := by
  refine ⟨⟨[], rfl⟩, ?_, ?_, ?_, ?_, ?_, ?_, ?_⟩
  · intro h; cases h
  · intro h; exact absurd rfl h
  · intro m hm hp
    rcases List.mem_singleton.mp hm with rfl
    exact absurd hp (by decide)
  · intro m hm hk
    rcases List.mem_singleton.mp hm with rfl
    exact absurd hk (by decide)
  · intro _; rfl
  · intro h; exact absurd rfl h
  · intro _; rfl

/-- Every scheduler step of the send ordering model preserves the
invariant. -/
theorem wireInv_step (s s1 : WireSt) (a : WireAct)
    (hstep : wireStep s a = Option.some s1) (hinv : WireInv s) : WireInv s1 := by
  cases a with
  | resolveNext =>
      unfold wireStep resolveNextStep at hstep
      split_ifs at hstep with hlen hc1 hc2 hc3
      · -- speech.config resolved: the chain hands over speech.context
        rw [Option.some.injEq] at hstep
        subst hstep
        have hsends := hinv.await_shape hc1.1
        have hreq : s.reqId = 1 :=
          hinv.reqId_pre (by rw [hc1.1]; intro hx; cases hx)
        have hpump : s.pump = PumpPhase.idle := by
          by_contra hne
          have hcfg := hinv.pump_cfg hne
          rw [hc1.1] at hcfg
          cases hcfg
        refine ⟨?_, ?_, ?_, ?_, ?_, ?_, ?_, ?_⟩
        · refine ⟨[⟨MsgKind.text, "speech.context", 1, 1⟩], ?_⟩
          rw [hsends, hreq, hc1.2]
          rfl
        · intro h; cases h
        · intro h; rw [hpump] at h; exact absurd rfl h
        · intro m hm hp
          rw [hsends, hreq, hc1.2] at hm
          rcases List.mem_append.mp hm with h | h
          · rcases List.mem_singleton.mp h with rfl
            exact absurd hp (by decide)
          · rcases List.mem_singleton.mp h with rfl
            exact Nat.le_refl 1
        · intro m hm hk
          rw [hsends, hreq, hc1.2] at hm
          rcases List.mem_append.mp hm with h | h
          · rcases List.mem_singleton.mp h with rfl
            exact absurd hk (by decide)
          · rcases List.mem_singleton.mp h with rfl
            exact absurd hk (by decide)
        · intro h; cases h
        · intro _
          refine ⟨[], ?_⟩
          rw [hsends, hreq, hc1.2]
          rfl
        · intro _; exact hreq
      · -- speech.context resolved: configured, pump launched
        rw [Option.some.injEq] at hstep
        subst hstep
        refine ⟨hinv.head_cfg, ?_, ?_, hinv.ctx_resolvedAtInit,
          hinv.bin_resolvedAtInit, ?_, ?_, ?_⟩
        · intro _
          show 2 ≤ s.resolved + 1
          omega
        · intro _; rfl
        · intro h; cases h
        · intro _
          exact hinv.ctx1_shape (by rw [hc2.1]; intro hx; cases hx)
        · intro h; exact absurd rfl h
      · -- an audio send the pump awaited resolved
        rw [Option.some.injEq] at hstep
        subst hstep
        refine ⟨hinv.head_cfg, ?_, ?_, hinv.ctx_resolvedAtInit,
          hinv.bin_resolvedAtInit, hinv.await_shape, hinv.ctx1_shape,
          hinv.reqId_pre⟩
        · intro h
          have := hinv.cfg_resolved h
          show 2 ≤ s.resolved + 1
          omega
        · intro _
          apply hinv.pump_cfg
          rw [hc3]
          intro hx; cases hx
      · -- a send nobody awaited resolved
        rw [Option.some.injEq] at hstep
        subst hstep
        refine ⟨hinv.head_cfg, ?_, hinv.pump_cfg, hinv.ctx_resolvedAtInit,
          hinv.bin_resolvedAtInit, hinv.await_shape, hinv.ctx1_shape,
          hinv.reqId_pre⟩
        intro h
        have := hinv.cfg_resolved h
        show 2 ≤ s.resolved + 1
        omega
  | pumpSend =>
      unfold wireStep pumpSendStep at hstep
      split_ifs at hstep with hp
      · rw [Option.some.injEq] at hstep
        subst hstep
        have hcfg : s.cfg = CfgPhase.configured :=
          hinv.pump_cfg (by rw [hp]; intro hx; cases hx)
        have hres : 2 ≤ s.resolved := hinv.cfg_resolved hcfg
        refine ⟨?_, ?_, ?_, ?_, ?_, ?_, ?_, ?_⟩
        · obtain ⟨t, ht⟩ := hinv.head_cfg
          exact ⟨t ++ [⟨MsgKind.binary, "audio", s.reqId, s.resolved⟩], by rw [ht]; rfl⟩
        · intro _; exact hres
        · intro _; exact hcfg
        · intro m hm hp2
          rcases List.mem_append.mp hm with h | h
          · exact hinv.ctx_resolvedAtInit m h hp2
          · rcases List.mem_singleton.mp h with rfl
            simp at hp2
        · intro m hm hk
          rcases List.mem_append.mp hm with h | h
          · exact hinv.bin_resolvedAtInit m h hk
          · rcases List.mem_singleton.mp h with rfl
            exact hres
        · intro h; rw [hcfg] at h; cases h
        · intro _
          obtain ⟨t, ht⟩ := hinv.ctx1_shape (by rw [hcfg]; intro hx; cases hx)
          exact ⟨t ++ [⟨MsgKind.binary, "audio", s.reqId, s.resolved⟩], by rw [ht]; rfl⟩
        · intro h; rw [hcfg] at h; exact absurd rfl h
  | deliverTurnEnd =>
      unfold wireStep deliverTurnEndStep at hstep
      split_ifs at hstep with hd
      · rw [Option.some.injEq] at hstep
        subst hstep
        have hres : 2 ≤ s.resolved := hinv.cfg_resolved hd.1
        refine ⟨?_, ?_, ?_, ?_, ?_, ?_, ?_, ?_⟩
        · obtain ⟨t, ht⟩ := hinv.head_cfg
          exact ⟨t ++ [⟨MsgKind.text, "speech.context", 2, s.resolved⟩], by rw [ht]; rfl⟩
        · intro _; exact hres
        · intro h; exact hinv.pump_cfg h
        · intro m hm hp2
          rcases List.mem_append.mp hm with h | h
          · exact hinv.ctx_resolvedAtInit m h hp2
          · rcases List.mem_singleton.mp h with rfl
            show 1 ≤ s.resolved
            omega
        · intro m hm hk
          rcases List.mem_append.mp hm with h | h
          · exact hinv.bin_resolvedAtInit m h hk
          · rcases List.mem_singleton.mp h with rfl
            simp at hk
        · intro h; rw [hd.1] at h; cases h
        · intro _
          obtain ⟨t, ht⟩ := hinv.ctx1_shape (by rw [hd.1]; intro hx; cases hx)
          exact ⟨t ++ [⟨MsgKind.text, "speech.context", 2, s.resolved⟩], by rw [ht]; rfl⟩
        · intro h; rw [hd.1] at h; exact absurd rfl h

/-- Running any list of scheduler actions from an invariant state reaches
only invariant states. -/
theorem wireInv_runFrom (acts : List WireAct) : ∀ s0 s : WireSt, WireInv s0 →
    wireRunFrom s0 acts = Option.some s → WireInv s := by
  induction acts with
  | nil =>
      intro s0 s h0 h
      unfold wireRunFrom at h
      rw [Option.some.injEq] at h
      rwa [← h]
  | cons a rest ih =>
      intro s0 s h0 h
      unfold wireRunFrom at h
      cases hs : wireStep s0 a with
      | none => rw [hs] at h; cases h
      | some s2 =>
          rw [hs] at h
          exact ih s2 s (wireInv_step s0 s2 a hs h0) h

/-- Claim C2, counterexample: a reachable schedule of the send ordering
model in continuous mode in which, after the turn boundary, the pump hands
over an audio frame carrying the new requestId 2 while the speech.context
send for requestId 2 (handed over fire and forget at the turn boundary)
has not yet resolved. The claimed property that no Binary audio frame is
sent before the speech.context send future for the current requestId has
resolved is therefore false as stated. -/
theorem C2_counterexample :
    wireRun [WireAct.resolveNext, WireAct.resolveNext, WireAct.pumpSend,
        WireAct.deliverTurnEnd, WireAct.resolveNext, WireAct.pumpSend] =
      Option.some ⟨[cfgSend, ctx1Send, ⟨MsgKind.binary, "audio", 1, 2⟩,
        ⟨MsgKind.text, "speech.context", 2, 2⟩, ⟨MsgKind.binary, "audio", 2, 3⟩],
        3, CfgPhase.configured, PumpPhase.awaitUpload 4, 2, true⟩ ∧
    (wireRun [WireAct.resolveNext, WireAct.resolveNext, WireAct.pumpSend,
        WireAct.deliverTurnEnd, WireAct.resolveNext, WireAct.pumpSend]).map
        contextResolvedBeforeAudio = Option.some false := by decide

/-- Claim C2, amended: on every physical connection the first message
handed to the transport is the speech.config Text message; every
speech.context send is handed over only after the speech.config send
future has resolved; and every Binary audio frame is handed over only
after the speech.context send future of the turn in which the connection
was configured has resolved (the first two sends on the connection being
speech.config and that speech.context). For later turns the per turn
speech.context send is fire and forget and is not awaited by the pump. -/
theorem C2_amended (acts : List WireAct) (s : WireSt)
    (h : wireRun acts = Option.some s) :
    (∃ t, s.sends = cfgSend :: t) ∧
    (∀ m ∈ s.sends, m.path = "speech.context" → 1 ≤ m.resolvedAtInit) ∧
    (∀ m ∈ s.sends, m.kind = MsgKind.binary →
      2 ≤ m.resolvedAtInit ∧ ∃ t, s.sends = cfgSend :: ctx1Send :: t) := by
  have hinv := wireInv_runFrom acts wireInit s wireInv_init h
  refine ⟨hinv.head_cfg, hinv.ctx_resolvedAtInit, ?_⟩
  intro m hm hk
  refine ⟨hinv.bin_resolvedAtInit m hm hk, ?_⟩
  apply hinv.ctx1_shape
  intro hcfg
  have hshape := hinv.await_shape hcfg
  rw [hshape] at hm
  rcases List.mem_singleton.mp hm with rfl
  exact absurd hk (by decide)

/-- Claim C2, witness: the amended ordering evaluated on the schedule that
resolves both configuration sends and then uploads one audio frame. -/
theorem C2_amended_witness :
    (∃ t, wireWitnessSt.sends = cfgSend :: t) ∧
    (∀ m ∈ wireWitnessSt.sends, m.path = "speech.context" → 1 ≤ m.resolvedAtInit) ∧
    (∀ m ∈ wireWitnessSt.sends, m.kind = MsgKind.binary →
      2 ≤ m.resolvedAtInit ∧ ∃ t, wireWitnessSt.sends = cfgSend :: ctx1Send :: t) :=
  C2_amended [WireAct.resolveNext, WireAct.resolveNext, WireAct.pumpSend]
    wireWitnessSt (by decide)

/-- Claim C4: in continuous mode with speech not ended, a turn.end message
matching the current requestId is handed to processTypeSpecificMessages,
because the turn.end case of the dispatch switch has no break statement
and falls through into the default case. This contradicts the claim that
turn.end is never handed to the subclass hook. -/
theorem C4_turn_end_fallthrough :
    (dispatchMessage true ⟨"r1", 0, true, false, true⟩
        ⟨"R1", "Turn.End", Option.none⟩).1 =
      [DispEv.telemetryFlush, DispEv.contextResend,
       DispEv.typeSpecific "Turn.End"] ∧
    DispEv.typeSpecific "Turn.End" ∈
      (dispatchMessage true ⟨"r1", 0, true, false, true⟩
        ⟨"R1", "Turn.End", Option.none⟩).1 := by decide

/-- Claim C6: with a transport whose first open resolves 403 and whose
second open would resolve 200, the connect call never invokes
auth.fetchOnExpiry, opens no second connection, and its returned future
never settles: the recursive connectImpl(true) call finds the still
pending stored promise and returns it, so the promise chain waits on
itself. This contradicts the claim of exactly one retry through
fetchOnExpiry resolving on the second 200. -/
theorem C6_retry_never_happens :
    connectScenario 403 200 "wss://speech.endpoint" "Forbidden" =
      ⟨1, 0, [0], ConnectOutcome.neverSettles⟩ ∧
    (connectScenario 403 200 "wss://speech.endpoint" "Forbidden").fetchOnExpiryCalls
      = 0 ∧
    connectScenario 403 200 "wss://speech.endpoint" "Forbidden" ≠
      ⟨1, 1, [0, 1], ConnectOutcome.resolvedConn 1⟩ := by decide

/-- Claim C7: connectImpl is idempotent. If the stored connection future
is neither completed with an error nor resolved to a connection in
Disconnected state, the guard returns the very same stored future; and the
guard clears the stored future and begins a new attempt exactly when the
future is completed and either errored or its connection is
Disconnected. -/
theorem C7_idempotent (f : StoredConn) :
    (¬ (f.completed = true ∧ f.isError = true) ∧
     ¬ (f.completed = true ∧ f.isError = false ∧
          f.connState = ConnectionState.Disconnected) →
      connectImplGuard (Option.some f) = GuardDecision.useStored f.futureId) ∧
    (connectImplGuard (Option.some f) = GuardDecision.startFresh ↔
      f.completed = true ∧
        (f.isError = true ∨ f.connState = ConnectionState.Disconnected)) := by
  constructor
  · rintro ⟨h1, h2⟩
    show (if f.completed = true ∧
        (f.isError = true ∨ f.connState = ConnectionState.Disconnected) then
        GuardDecision.startFresh else GuardDecision.useStored f.futureId) =
      GuardDecision.useStored f.futureId
    rw [if_neg]
    rintro ⟨hc, herr | hdis⟩
    · exact h1 ⟨hc, herr⟩
    · cases he : f.isError
      · exact h2 ⟨hc, he, hdis⟩
      · exact h1 ⟨hc, he⟩
  · show (if f.completed = true ∧
        (f.isError = true ∨ f.connState = ConnectionState.Disconnected) then
        GuardDecision.startFresh else GuardDecision.useStored f.futureId) =
        GuardDecision.startFresh ↔ _
    split_ifs with hg
    · constructor
      · intro _
        exact hg
      · intro _
        rfl
    · constructor
      · intro hcon
        exact nomatch hcon
      · intro hr
        exact absurd hr hg

/-- Claim C7, witness: the guard evaluated on a pending healthy stored
future with identity 5. -/
theorem C7_idempotent_witness :
    (¬ ((StoredConn.mk 5 false false ConnectionState.Connected).completed = true ∧
        (StoredConn.mk 5 false false ConnectionState.Connected).isError = true) ∧
     ¬ ((StoredConn.mk 5 false false ConnectionState.Connected).completed = true ∧
        (StoredConn.mk 5 false false ConnectionState.Connected).isError = false ∧
        (StoredConn.mk 5 false false ConnectionState.Connected).connState =
          ConnectionState.Disconnected) →
      connectImplGuard (Option.some (StoredConn.mk 5 false false ConnectionState.Connected)) =
        GuardDecision.useStored 5) ∧
    (connectImplGuard (Option.some (StoredConn.mk 5 false false ConnectionState.Connected)) =
        GuardDecision.startFresh ↔
      (StoredConn.mk 5 false false ConnectionState.Connected).completed = true ∧
        ((StoredConn.mk 5 false false ConnectionState.Connected).isError = true ∨
         (StoredConn.mk 5 false false ConnectionState.Connected).connState =
           ConnectionState.Disconnected)) :=
  C7_idempotent (StoredConn.mk 5 false false ConnectionState.Connected)

/-- Claim C8, counterexample: a speech.enddetected message with Offset 5
while currentTurnAudioOffset is 10000000 makes the code invoke
onServiceRecognized with 10000005, the parsed Offset plus
currentTurnAudioOffset, and never with the parsed Offset 5 alone; the
claim that onServiceRecognized is invoked with the parsed Offset is
therefore false as stated. -/
theorem C8_counterexample :
    (dispatchMessage true ⟨"r1", 10000000, false, false, true⟩
        ⟨"r1", "speech.enddetected", Option.some 5⟩).1 =
      [DispEv.onServiceRecognizedCall 10000005,
       DispEv.speechEndDetectedEvent 20000010] ∧
    DispEv.onServiceRecognizedCall 5 ∉
      (dispatchMessage true ⟨"r1", 10000000, false, false, true⟩
        ⟨"r1", "speech.enddetected", Option.some 5⟩).1 := by decide

/-- Claim C8, amended: for a speech.enddetected message matching the
current requestId in continuous mode, the parsed Offset defaults to 0 when
the body is empty; onServiceRecognized is invoked with the parsed Offset
plus currentTurnAudioOffset (under the spec model of onServiceRecognized
this advances currentTurnAudioOffset by that sum); and the
speechEndDetected event carries the parsed Offset plus the value of
currentTurnAudioOffset read after that invocation. -/
theorem C8_amended (s : SessSt) (b : Option Int) :
    speechEndDetectedDispatch true s b =
      ([DispEv.onServiceRecognizedCall (b.getD 0 + s.currentTurnAudioOffset),
        DispEv.speechEndDetectedEvent
          (b.getD 0 + (s.currentTurnAudioOffset +
            (b.getD 0 + s.currentTurnAudioOffset)))],
       ⟨s.requestId,
        s.currentTurnAudioOffset + (b.getD 0 + s.currentTurnAudioOffset),
        s.mustReportEndOfStream, s.isSpeechEnded, s.isRecognizing⟩) := by
  cases b <;> rfl

/-- Claim C8, witness: the amended behaviour at Offset 2 and
currentTurnAudioOffset 7, including the empty body default through getD. -/
theorem C8_amended_witness :
    speechEndDetectedDispatch true ⟨"r1", 7, false, false, true⟩ (Option.some 2) =
      ([DispEv.onServiceRecognizedCall 9, DispEv.speechEndDetectedEvent 18],
       ⟨"r1", 16, false, false, true⟩) :=
  C8_amended ⟨"r1", 7, false, false, true⟩ (Option.some 2)

/-- Claim C5: the unthrottled byte budget equals avgBytesPerSec times the
fast lane milliseconds divided by 1000, with the fast lane value parsed
from the SPEECH-TransmitLengthBeforThrottleMs property defaulting to 5000;
at avgBytesPerSec 32000 the budget is 160000, and any send whose
cumulative bytesSent is within the budget gets zero delay; beyond the
budget the delay is the positive part of nextSendTime minus now, and after
sending L bytes nextSendTime is now plus L times 1000 over twice
avgBytesPerSec. -/
theorem C5_pacing (props : List (String × String)) (avg L bytes nst now : ℚ)
    (f : Nat) (_hf : parseDecimal (fastLaneSizeMsProperty props) = Option.some f) :
    maxSendUnthrottledBytes avg f = avg * (f : ℚ) / 1000 ∧
    fastLaneSizeMsProperty [] = "5000" ∧
    parseDecimal "5000" = Option.some 5000 ∧
    maxSendUnthrottledBytes 32000 5000 = 160000 ∧
    (bytes ≤ maxSendUnthrottledBytes 32000 5000 →
      sendDelayFor (maxSendUnthrottledBytes 32000 5000) bytes nst now = 0) ∧
    (maxSendUnthrottledBytes avg f < bytes →
      sendDelayFor (maxSendUnthrottledBytes avg f) bytes nst now =
        max 0 (nst - now)) ∧
    nextSendTimeAfterSend now L avg = now + L * 1000 / (avg * 2) := by
  refine ⟨?_, rfl, by decide, ?_, ?_, ?_, rfl⟩
  · unfold maxSendUnthrottledBytes
    ring
  · unfold maxSendUnthrottledBytes
    norm_num
  · intro hb
    unfold sendDelayFor
    rw [if_pos hb]
  · intro hb
    unfold sendDelayFor
    rw [if_neg (not_le.mpr hb)]

/-- Claim C5, witness: the pacing facts evaluated at avgBytesPerSec 32000,
the default fast lane of 5000 ms, a payload of 3200 bytes and cumulative
bytesSent 160000. -/
theorem C5_pacing_witness :
    maxSendUnthrottledBytes 32000 5000 = 32000 * ((5000 : Nat) : ℚ) / 1000 ∧
    fastLaneSizeMsProperty [] = "5000" ∧
    parseDecimal "5000" = Option.some 5000 ∧
    maxSendUnthrottledBytes 32000 5000 = 160000 ∧
    ((160000 : ℚ) ≤ maxSendUnthrottledBytes 32000 5000 →
      sendDelayFor (maxSendUnthrottledBytes 32000 5000) 160000 10 4 = 0) ∧
    (maxSendUnthrottledBytes 32000 5000 < 160000 →
      sendDelayFor (maxSendUnthrottledBytes 32000 5000) 160000 10 4 =
        max 0 (10 - 4)) ∧
    nextSendTimeAfterSend 4 3200 32000 = 4 + 3200 * 1000 / (32000 * 2) :=
  C5_pacing [] 32000 3200 160000 10 4 5000 (by decide)
